import Mathlib

/-!
Verification development for the cisTEM plugin core:
the CTF record builder (cistem/convert/convert.py) and the
2D-classification parameter-file merge and iteration schedulers
(cistem/protocols/protocol_refine2d.py), shallowly embedded in Lean.

Python floats are modelled by exact rationals plus an explicit NaN
constructor; numpy row selection and list indexing are modelled with
List.getD (claims only quantify over well-formed rows, where the
default is never read).
-/

namespace Cistem

/-- Model of a Python/numpy float value: either NaN or an exact rational. -/
inductive PyF where
  | nan : PyF
  | val : ℚ → PyF
deriving DecidableEq

/-- Test for NaN, modelling np.isnan on one element. -/
def PyF.isNaN : PyF → Bool
  | .nan => true
  | .val _ => false

/-- IEEE-style strict less-than: any comparison with NaN is false. -/
def PyF.blt : PyF → PyF → Bool
  | .val x, .val y => decide (x < y)
  | _, _ => false

/-- IEEE-style disequality with zero: NaN != 0 is true. -/
def PyF.bneZero : PyF → Bool
  | .nan => true
  | .val x => decide (x ≠ 0)

/-- Factor 180/pi as the double-precision constant used by np.rad2deg. -/
def radToDegFactor : ℚ := 57.29577951308232

/-- Model of np.rad2deg: multiply by the 180/pi conversion factor. -/
def rad2deg : PyF → PyF
  | .nan => .nan
  | .val x => .val (x * radToDegFactor)

/-- Model of a Scipion CTFModel object: each attribute is None until set.
The iceRingDensity slot models the dynamically injected
_rlnIceRingDensity attribute. -/
structure CTFModel where
  defocusU : Option PyF
  defocusV : Option PyF
  defocusAngle : Option PyF
  fitQuality : Option PyF
  resolution : Option PyF
  phaseShift : Option PyF
  iceRingDensity : Option PyF
deriving DecidableEq

/-- Fresh CTF model with no attribute set. -/
def CTFModel.empty : CTFModel := ⟨none, none, none, none, none, none, none⟩

/-- Model of ctfModel.setStandardDefocus(u, v, a). -/
def setStandardDefocus (m : CTFModel) (u v a : PyF) : CTFModel :=
  { m with defocusU := some u, defocusV := some v, defocusAngle := some a }

/-- Model of convert.setWrongDefocus: the sentinel defocus values written
when result parsing has failed. -/
def setWrongDefocus (m : CTFModel) : CTFModel :=
  { m with defocusU := some (.val (-999)), defocusV := some (.val (-1)),
           defocusAngle := some (.val (-999)) }

/-- Parsed CTF result array: a single row (1-D) or a stack of rows (2-D),
mirroring the two shapes np.loadtxt can return. -/
inductive CtfArray where
  | oneD (row : List PyF)
  | twoD (rows : List (List PyF))
deriving DecidableEq

/-- Row selection at the top of readCtfModelStack: a 2-D array is indexed
by item, a 1-D array is used whole; None yields a dummy empty row (only
read behind the isNone guard). -/
def selectRow : Option CtfArray → ℕ → List PyF
  | some (.twoD rows), item => rows.getD item []
  | some (.oneD row), _ => row
  | none, _ => []

/-- Validity test of readCtfModelStack: ctfArray is None, or the selected
row contains a NaN, or defocus1 (index 1) or defocus2 (index 2) is
negative. -/
def ctfInvalid (ctfArray : Option CtfArray) (item : ℕ) : Bool :=
  ctfArray.isNone || (selectRow ctfArray item).any PyF.isNaN
    || PyF.blt ((selectRow ctfArray item).getD 1 .nan) (.val 0)
    || PyF.blt ((selectRow ctfArray item).getD 2 .nan) (.val 0)

/-- Attachment of the ice-ring density attribute at the end of
readCtfModelStack: with a rotational-average array of more than one
element the item index selects the value, otherwise element 0 is used;
with no array the attribute is left as it was. -/
def iceRingUpdate (old : Option PyF) (rotAvgArray : Option (List PyF)) (item : ℕ) :
    Option PyF :=
  match rotAvgArray with
  | some arr => if arr.length > 1 then some (arr.getD item .nan) else some (arr.getD 0 .nan)
  | none => old

/-- Model of convert.readCtfModelStack: build a CTF model from a parsed
result array, returning the model together with the optional tomography
fields (tiltAxis, tiltAngle, thickness). -/
def readCtfModelStack (ctfModel : CTFModel) (ctfArray : Option CtfArray)
    (rotAvgArray : Option (List PyF)) (item : ℕ) :
    CTFModel × Option PyF × Option PyF × Option PyF :=
  let values := selectRow ctfArray item
  let invalid := ctfInvalid ctfArray item
  let m1 := if invalid then setWrongDefocus ctfModel
    else setStandardDefocus ctfModel (values.getD 1 .nan) (values.getD 2 .nan)
      (values.getD 3 .nan)
  let ctfPhaseShift := if invalid then PyF.val 0 else values.getD 4 .nan
  let ctfFit : PyF := if invalid then .val (-999) else values.getD 5 .nan
  let ctfResolution : PyF := if invalid then .val (-999) else values.getD 6 .nan
  let tiltAxis := if invalid then none
    else if values.length = 10 then some (values.getD 7 .nan) else none
  let tiltAngle := if invalid then none
    else if values.length = 10 then some (values.getD 8 .nan) else none
  let thickness := if invalid then none
    else if values.length = 10 then some (values.getD 9 .nan) else none
  let m2 := { m1 with fitQuality := some ctfFit, resolution := some ctfResolution }
  let ctfPhaseShiftDeg := rad2deg ctfPhaseShift
  let m3 := if PyF.bneZero ctfPhaseShiftDeg
    then { m2 with phaseShift := some ctfPhaseShiftDeg } else m2
  let m4 := { m3 with iceRingDensity := iceRingUpdate m3.iceRingDensity rotAvgArray item }
  (m4, tiltAxis, tiltAngle, thickness)

/-- Example concrete valid CTF row with 7 columns and zero phase shift. -/
def exRow7 : List PyF :=
  [.val 1, .val 20000, .val 19000, .val 45, .val 0, .val 1, .val 4]

/-- Example concrete valid CTF row with 11 columns. -/
def exRow11 : List PyF :=
  [.val 1, .val 20000, .val 19000, .val 45, .val 0, .val 1, .val 4,
   .val 85, .val 30, .val 1200, .val 7]

/-- Model of protocol_refine2d._calcHighResLimit. Python ints and floats
are modelled as exact rationals; iter_total * 3 / 4 is Python true
division. -/
def calcHighResLimit (iter_total highRes1 highRes2 : ℚ) : ℚ :=
  if iter_total > 1 then
    let reachMaxHighResAtCycle : ℚ :=
      if iter_total ≥ 4 then iter_total * 3 / 4 else iter_total
    if iter_total ≥ reachMaxHighResAtCycle then highRes2
    else highRes1 + iter_total / (reachMaxHighResAtCycle - 1) * (highRes2 - highRes1)
  else highRes2

/-- Model of protocol_refine2d._calcPercUsed with the same tier structure
as the source. Python ints and floats are modelled as exact rationals. -/
def calcPercUsed (iter_total iter_done numCls numParts percUsed : ℚ)
    (autoPerc : Bool) : ℚ :=
  let minPercUsed := percUsed
  let p : ℚ :=
    if autoPerc then
      if iter_total < 10 then 100
      else if iter_total < 20 then
        if iter_done < 5 then
          let f := numCls * 300 / numParts * 100
          if f > 100 then 100 else f
        else if iter_done < iter_total - 5 then
          let f := numCls * 300 / numParts * 100
          if f > 100 then 100 else if f < 30 then 30 else f
        else 100
      else if iter_total < 30 then
        if iter_done < 10 then
          let f := numCls * 300 / numParts * 100
          if f > 100 then 100 else f
        else if iter_done < iter_total - 5 then
          let f := numCls * 300 / numParts * 100
          if f > 100 then 100 else if f < 30 then 30 else f
        else 100
      else
        if iter_done < 15 then
          let f := numCls * 300 / numParts * 100
          if f > 100 then 100 else f
        else if iter_done < iter_total - 5 then
          let f := numCls * 300 / numParts * 100
          if f > 100 then 100 else if f < 30 then 30 else f
        else 100
    else percUsed
  if p < minPercUsed then minPercUsed else p

/-- Model of the Python test l.startswith(C): the first character of the
line is C. Defined on the character list of the string so that it
evaluates by kernel reduction. -/
def startsWithC (l : String) : Bool :=
  match l.data with
  | [] => false
  | c :: _ => c == 'C'

/-- Header line written by _mergeAllParFiles at the top of the merged
iteration parameter file. -/
def parHeader : String :=
  "C           PSI   THETA     PHI       SHX       SHY     MAG  FILM      DF1      DF2  ANGAST  PSHIFT     OCC      LogP      SIGMA   SCORE  CHANGE"

/-- Outcome of a merge call: the raised exception message (if any) and
the content of the output iteration file on disk afterwards (none when
the file was never created). -/
structure MergeResult where
  error : Option String
  outFile : Option (List String)
deriving DecidableEq

/-- Loop of _mergeAllParFiles over the block files, carried out on the
lines already written to the output file: a missing block file raises at
once (lines written so far stay in the file); an existing block appends
its lines that do not start with C. -/
def mergeLoop (parFnOf : ℕ → String) (blocks : List (Option (List String)))
    (k : ℕ) (acc : List String) : Option String × List String :=
  match blocks with
  | [] => (none, acc)
  | none :: _ => (some ("Error: file " ++ parFnOf k ++ " does not exist"), acc)
  | some ls :: rest =>
      mergeLoop parFnOf rest (k + 1) (acc ++ ls.filter (fun l => !startsWithC l))

/-- Model of protocol_refine2d._mergeAllParFiles. blocks lists the block
file contents in block order (none when the file does not exist) and
parFnOf gives the name of each 1-based block file. With numberOfBlocks
different from 1 the output file is created and the shared header
written before any block file is checked; with exactly one block the
block file is renamed to the output file (the rename fails when the
block file is absent). -/
def mergeAllParFiles (parFnOf : ℕ → String)
    (blocks : List (Option (List String))) : MergeResult :=
  if blocks.length ≠ 1 then
    let r := mergeLoop parFnOf blocks 1 [parHeader]
    ⟨r.1, some r.2⟩
  else
    match blocks.getD 0 none with
    | some ls => ⟨none, some ls⟩
    | none => ⟨some ("moveFile: file " ++ parFnOf 1 ++ " does not exist"), none⟩

/-- Concrete block-file name scheme used by the concrete merge inputs. -/
def exParFn (block : ℕ) : String :=
  "Refine2D/extra/iter_002_par_block_" ++ toString block ++ ".par"

/-- Concrete content of block file 1. -/
def exBlock1 : List String :=
  [parHeader, "      1   10.00", "      2   20.00"]

/-- Concrete content of block file 3. -/
def exBlock3 : List String :=
  [parHeader, "      5   50.00"]

/-- Predicate stating that consecutive blocks of data rows carry
contiguous ascending particle-index ranges starting at s, the index of a
row being read off by idx. -/
def contiguousFrom (idx : String → ℕ) : ℕ → List (List String) → Prop
  | _, [] => True
  | s, r :: rest =>
      r.map idx = List.range' s r.length ∧ contiguousFrom idx (s + r.length) rest

/-- Model of the loop body of convert.readCoordinates for one line of a
.plt file: the whitespace tokens are given already parsed as rationals;
the code stores values[1] as x and yDim - values[0] as y. -/
def readCoordinatesLine (yDim : ℚ) (values : List ℚ) : ℚ × ℚ :=
  (values.getD 1 0, yDim - values.getD 0 0)

/-- Column names of the Frealign parameter file rows
(convert.HEADER_COLUMNS). -/
def HEADER_COLUMNS : List String :=
  ["INDEX", "PSI", "THETA", "PHI", "SHX", "SHY", "MAG",
   "FILM", "DF1", "DF2", "ANGAST", "PSHIFT", "OCC",
   "LogP", "SIGMA", "SCORE", "CHANGE"]

/-- Model of Python str.split() with no separator, on a character list
with an accumulator for the token being read: split on runs of
whitespace and discard empty tokens. -/
def pySplitChars : List Char → List Char → List (List Char)
  | [], acc => if acc = [] then [] else [acc.reverse]
  | c :: rest, acc =>
      if c.isWhitespace then
        if acc = [] then pySplitChars rest []
        else acc.reverse :: pySplitChars rest []
      else pySplitChars rest (c :: acc)

/-- Model of Python line.split() on a string. -/
def pySplit (s : String) : List String :=
  (pySplitChars s.data []).map (fun cs => String.mk cs)

/-- Model of Python str.strip(): drop whitespace from both ends. -/
def pyStrip (s : String) : String :=
  String.mk (((s.data.dropWhile Char.isWhitespace).reverse.dropWhile
    Char.isWhitespace).reverse)

/-- Model of one step of FrealignParFile.__iter__ on one line of the
file: the stripped line yields no row when it starts with C; otherwise
it is split on whitespace and zipped against the header column names
(zip stops at the shorter sequence), yielding an ordered association
list. -/
def frealignIterLine (line : String) : Option (List (String × String)) :=
  let l := pyStrip line
  if startsWithC l then none
  else some (HEADER_COLUMNS.zip (pySplit l))

/-- Normal form of readCtfModelStack in the invalid (sentinel) case. -/
theorem readCtfModelStack_invalid_eq (m : CTFModel) (a : Option CtfArray)
    (rot : Option (List PyF)) (item : ℕ) (h : ctfInvalid a item = true) :
    readCtfModelStack m a rot item =
      ({ m with defocusU := some (.val (-999)), defocusV := some (.val (-1)),
                defocusAngle := some (.val (-999)), fitQuality := some (.val (-999)),
                resolution := some (.val (-999)),
                iceRingDensity := iceRingUpdate m.iceRingDensity rot item },
       none, none, none) := by
  simp [readCtfModelStack, h, setWrongDefocus, rad2deg, PyF.bneZero, radToDegFactor]

/-- Normal form of readCtfModelStack in the valid case. -/
theorem readCtfModelStack_valid_eq (m : CTFModel) (a : Option CtfArray)
    (rot : Option (List PyF)) (item : ℕ) (h : ctfInvalid a item = false) :
    readCtfModelStack m a rot item =
      ({ m with defocusU := some ((selectRow a item).getD 1 .nan),
                defocusV := some ((selectRow a item).getD 2 .nan),
                defocusAngle := some ((selectRow a item).getD 3 .nan),
                fitQuality := some ((selectRow a item).getD 5 .nan),
                resolution := some ((selectRow a item).getD 6 .nan),
                phaseShift := if PyF.bneZero (rad2deg ((selectRow a item).getD 4 .nan))
                  then some (rad2deg ((selectRow a item).getD 4 .nan)) else m.phaseShift,
                iceRingDensity := iceRingUpdate m.iceRingDensity rot item },
       if (selectRow a item).length = 10 then some ((selectRow a item).getD 7 .nan) else none,
       if (selectRow a item).length = 10 then some ((selectRow a item).getD 8 .nan) else none,
       if (selectRow a item).length = 10 then some ((selectRow a item).getD 9 .nan) else none) := by
  simp only [readCtfModelStack, h, Bool.false_eq_true, if_false, setStandardDefocus]
  split <;> rfl

/-- C1: for every readCtfModelStack input where the array is None, or the
selected row contains a NaN, or defocus1 (index 1) or defocus2 (index 2)
is negative, the resulting record has defocusU = -999, defocusV = -1,
defocusAngle = -999, fitQuality = -999, resolution = -999 and no
phase-shift field set. -/
theorem c1_sentinel_record (m : CTFModel) (a : Option CtfArray)
    (rot : Option (List PyF)) (item : ℕ)
    (hps : m.phaseShift = none)
    (h : a = none ∨ (selectRow a item).any PyF.isNaN = true
      ∨ PyF.blt ((selectRow a item).getD 1 .nan) (.val 0) = true
      ∨ PyF.blt ((selectRow a item).getD 2 .nan) (.val 0) = true) :
    (readCtfModelStack m a rot item).1.defocusU = some (.val (-999)) ∧
    (readCtfModelStack m a rot item).1.defocusV = some (.val (-1)) ∧
    (readCtfModelStack m a rot item).1.defocusAngle = some (.val (-999)) ∧
    (readCtfModelStack m a rot item).1.fitQuality = some (.val (-999)) ∧
    (readCtfModelStack m a rot item).1.resolution = some (.val (-999)) ∧
    (readCtfModelStack m a rot item).1.phaseShift = none := by
  have hinv : ctfInvalid a item = true := by
    unfold ctfInvalid
    rcases h with h | h | h | h
    · subst h
      rfl
    · rw [h]
      simp
    · rw [h]
      simp
    · rw [h]
      simp
  rw [readCtfModelStack_invalid_eq m a rot item hinv]
  refine ⟨rfl, rfl, rfl, rfl, rfl, hps⟩

/-- Witness for C1 at the concrete input where the array is None. -/
theorem c1_sentinel_record_witness :
    (readCtfModelStack CTFModel.empty none none 0).1.defocusU = some (.val (-999)) ∧
    (readCtfModelStack CTFModel.empty none none 0).1.defocusV = some (.val (-1)) ∧
    (readCtfModelStack CTFModel.empty none none 0).1.defocusAngle = some (.val (-999)) ∧
    (readCtfModelStack CTFModel.empty none none 0).1.fitQuality = some (.val (-999)) ∧
    (readCtfModelStack CTFModel.empty none none 0).1.resolution = some (.val (-999)) ∧
    (readCtfModelStack CTFModel.empty none none 0).1.phaseShift = none :=
  c1_sentinel_record CTFModel.empty none none 0 rfl (Or.inl rfl)

/-- C6: for a valid row, if the phase shift converted to degrees is
exactly zero then the built record has no phase-shift field set; if the
converted value is a nonzero rational then the field is set to exactly
that converted value. -/
theorem c6_phase_shift_suppression (m : CTFModel) (a : Option CtfArray)
    (rot : Option (List PyF)) (item : ℕ)
    (hvalid : ctfInvalid a item = false) (hps : m.phaseShift = none) :
    (rad2deg ((selectRow a item).getD 4 .nan) = .val 0 →
      (readCtfModelStack m a rot item).1.phaseShift = none) ∧
    (∀ q : ℚ, rad2deg ((selectRow a item).getD 4 .nan) = .val q → q ≠ 0 →
      (readCtfModelStack m a rot item).1.phaseShift = some (.val q)) := by
  constructor
  · intro h0
    have hb : PyF.bneZero (rad2deg ((selectRow a item).getD 4 .nan)) = false := by
      rw [h0]
      rfl
    rw [readCtfModelStack_valid_eq m a rot item hvalid]
    show (if PyF.bneZero (rad2deg ((selectRow a item).getD 4 .nan)) = true
      then some (rad2deg ((selectRow a item).getD 4 .nan)) else m.phaseShift) = none
    rw [hb]
    simp [hps]
  · intro q hq hq0
    have hb : PyF.bneZero (rad2deg ((selectRow a item).getD 4 .nan)) = true := by
      rw [hq]
      simp [PyF.bneZero, hq0]
    rw [readCtfModelStack_valid_eq m a rot item hvalid]
    show (if PyF.bneZero (rad2deg ((selectRow a item).getD 4 .nan)) = true
      then some (rad2deg ((selectRow a item).getD 4 .nan)) else m.phaseShift) = some (.val q)
    rw [hb, hq]
    simp

/-- Witness for C6 at a concrete valid row with zero phase shift. -/
theorem c6_phase_shift_suppression_witness :
    (rad2deg ((selectRow (some (.oneD exRow7)) 0).getD 4 .nan) = .val 0 →
      (readCtfModelStack CTFModel.empty (some (.oneD exRow7)) none 0).1.phaseShift = none) ∧
    (∀ q : ℚ, rad2deg ((selectRow (some (.oneD exRow7)) 0).getD 4 .nan) = .val q → q ≠ 0 →
      (readCtfModelStack CTFModel.empty (some (.oneD exRow7)) none 0).1.phaseShift =
        some (.val q)) :=
  c6_phase_shift_suppression CTFModel.empty (some (.oneD exRow7)) none 0 (by decide) rfl

/-- C8 (amended): for a valid row the tomography fields tiltAxis,
tiltAngle, thickness are populated from row indices 7, 8, 9 exactly when
the row has exactly 10 columns; for any other column count (fewer or
more) all three returned values are None. -/
theorem c8_tilt_fields (m : CTFModel) (a : Option CtfArray)
    (rot : Option (List PyF)) (item : ℕ)
    (hvalid : ctfInvalid a item = false) :
    ((selectRow a item).length = 10 →
      (readCtfModelStack m a rot item).2 =
        (some ((selectRow a item).getD 7 .nan), some ((selectRow a item).getD 8 .nan),
         some ((selectRow a item).getD 9 .nan))) ∧
    ((selectRow a item).length ≠ 10 →
      (readCtfModelStack m a rot item).2 = (none, none, none)) := by
  rw [readCtfModelStack_valid_eq m a rot item hvalid]
  constructor
  · intro h
    simp [h]
  · intro h
    simp [h]

/-- Witness for C8 at a concrete valid 7-column row. -/
theorem c8_tilt_fields_witness :
    ((selectRow (some (.oneD exRow7)) 0).length = 10 →
      (readCtfModelStack CTFModel.empty (some (.oneD exRow7)) none 0).2 =
        (some ((selectRow (some (.oneD exRow7)) 0).getD 7 .nan),
         some ((selectRow (some (.oneD exRow7)) 0).getD 8 .nan),
         some ((selectRow (some (.oneD exRow7)) 0).getD 9 .nan))) ∧
    ((selectRow (some (.oneD exRow7)) 0).length ≠ 10 →
      (readCtfModelStack CTFModel.empty (some (.oneD exRow7)) none 0).2 =
        (none, none, none)) :=
  c8_tilt_fields CTFModel.empty (some (.oneD exRow7)) none 0 (by decide)

/-- Counterexample for C8 as stated: a valid row with 11 columns (which
is at least 10) does not get its tiltAxis populated from index 7. -/
theorem c8_counterexample :
    (readCtfModelStack CTFModel.empty (some (.oneD exRow11)) none 0).2.1 ≠
      some (exRow11.getD 7 .nan) := by decide

/-- C10 (amended): for a one-dimensional result array the item index is
ignored for everything except the ice-ring density attachment: the CTF
fields of the model and the tomography triple are identical for all
item values. -/
theorem c10_oneD_ignores_item (m : CTFModel) (row : List PyF)
    (rot : Option (List PyF)) (i j : ℕ) :
    ({ (readCtfModelStack m (some (.oneD row)) rot i).1 with iceRingDensity := none } =
      { (readCtfModelStack m (some (.oneD row)) rot j).1 with iceRingDensity := none }) ∧
    (readCtfModelStack m (some (.oneD row)) rot i).2 =
      (readCtfModelStack m (some (.oneD row)) rot j).2 := by
  have hsel : ∀ k : ℕ, selectRow (some (.oneD row)) k = row := fun _ => rfl
  rcases h : ctfInvalid (some (.oneD row)) i with _ | _
  · have hj : ctfInvalid (some (.oneD row)) j = false := h
    rw [readCtfModelStack_valid_eq m _ rot i h, readCtfModelStack_valid_eq m _ rot j hj]
    exact ⟨rfl, rfl⟩
  · have hj : ctfInvalid (some (.oneD row)) j = true := h
    rw [readCtfModelStack_invalid_eq m _ rot i h, readCtfModelStack_invalid_eq m _ rot j hj]
    exact ⟨rfl, rfl⟩

/-- Counterexample for C10 as stated: with a one-dimensional result array
but a two-element rotational-average array, item 0 and item 1 produce
different records (the ice-ring density still indexes by item). -/
theorem c10_counterexample :
    (readCtfModelStack CTFModel.empty (some (.oneD exRow7))
        (some [.val 1, .val 2]) 0).1.iceRingDensity ≠
      (readCtfModelStack CTFModel.empty (some (.oneD exRow7))
        (some [.val 1, .val 2]) 1).1.iceRingDensity := by
  decide

/-- C3 (code evaluation): _calcHighResLimit returns highRes2 for every
input. The comparison iter_total >= iter_total * 3 / 4 (respectively
iter_total >= iter_total when iter_total < 4) always holds, so the
linear interpolation branch of the ramp is unreachable and the high
resolution limit never ramps. -/
theorem calcHighResLimit_const (iter_total highRes1 highRes2 : ℚ) :
    calcHighResLimit iter_total highRes1 highRes2 = highRes2 := by
  simp only [calcHighResLimit]
  split_ifs with h1 h2 h3 h4 <;> first
  | rfl
  | linarith

/-- Counterexample for C2 as stated: with iterTotal = 25, iterDone = 5
the call falls in the early branch (iter_done < 10) of the 20..29 tier,
which has no 30-percent floor, so the result is not 30. -/
theorem c2_counterexample : calcPercUsed 25 5 5 50000 10 true ≠ 30 := by
  norm_num [calcPercUsed]

/-- C2 (amended): the first boundary value is 100 as claimed; the second
call returns the formula value 5 * 300 / 50000 * 100 = 3 clamped up only
by the manual minimum 10, hence 10 (not 30: the 30-percent floor applies
only from iter_done >= 10 in this tier). -/
theorem c2_percent_used_boundary :
    calcPercUsed 5 0 1 300 10 true = 100 ∧ calcPercUsed 25 5 5 50000 10 true = 10 := by
  constructor <;> norm_num [calcPercUsed]

/-- Merge loop result when every block file exists. -/
theorem mergeLoop_all_some (parFnOf : ℕ → String) (files : List (List String))
    (k : ℕ) (acc : List String) :
    mergeLoop parFnOf (files.map some) k acc =
      (none,
       acc ++ (files.map (fun ls => ls.filter (fun l => !startsWithC l))).flatten) := by
  induction files generalizing k acc with
  | nil => simp [mergeLoop]
  | cons ls rest ih => simp [mergeLoop, ih, List.append_assoc]

/-- Merge loop result when the first missing block file sits after the
blocks listed in pre. -/
theorem mergeLoop_first_missing (parFnOf : ℕ → String) (pre : List (List String))
    (post : List (Option (List String))) (k : ℕ) (acc : List String) :
    mergeLoop parFnOf (pre.map some ++ none :: post) k acc =
      (some ("Error: file " ++ parFnOf (k + pre.length) ++ " does not exist"),
       acc ++ (pre.map (fun ls => ls.filter (fun l => !startsWithC l))).flatten) := by
  induction pre generalizing k acc with
  | nil => simp [mergeLoop]
  | cons ls rest ih =>
      have hk : (k + 1) + rest.length = k + (rest.length + 1) := by omega
      simp [mergeLoop, ih, List.append_assoc, hk]

/-- Counterexample for C4 as stated: with block 2 of 3 missing the merge
raises, but the output iteration file has already been created (the
shared header and the rows of block 1 were written before the existence
check), so an output file is produced. -/
theorem c4_counterexample :
    (mergeAllParFiles exParFn [some exBlock1, none, some exBlock3]).error ≠ none ∧
    (mergeAllParFiles exParFn [some exBlock1, none, some exBlock3]).outFile ≠ none := by
  constructor <;> decide

/-- C4 (amended): for a merge of more than one block where the first
missing block file sits at 1-based position pre.length + 1, the raised
error message contains the path of that block file, and the output iteration
file has already been created, holding the shared header and the data
rows of the blocks before the missing one. -/
theorem c4_merge_missing_block (parFnOf : ℕ → String) (pre : List (List String))
    (post : List (Option (List String)))
    (hlen : (pre.map some ++ none :: post).length ≠ 1) :
    (∃ s1 s2 : String,
      (mergeAllParFiles parFnOf (pre.map some ++ none :: post)).error =
        some (s1 ++ parFnOf (1 + pre.length) ++ s2)) ∧
    (mergeAllParFiles parFnOf (pre.map some ++ none :: post)).outFile =
      some (parHeader ::
        (pre.map (fun ls => ls.filter (fun l => !startsWithC l))).flatten) := by
  unfold mergeAllParFiles
  rw [if_pos hlen]
  rw [mergeLoop_first_missing]
  exact ⟨⟨"Error: file ", " does not exist", rfl⟩, rfl⟩

/-- Witness for C4 at the concrete three-block input with block 2
missing. -/
theorem c4_merge_missing_block_witness :
    (∃ s1 s2 : String,
      (mergeAllParFiles exParFn ([exBlock1].map some ++ none :: [some exBlock3])).error =
        some (s1 ++ exParFn (1 + [exBlock1].length) ++ s2)) ∧
    (mergeAllParFiles exParFn ([exBlock1].map some ++ none :: [some exBlock3])).outFile =
      some (parHeader ::
        ([exBlock1].map (fun ls => ls.filter (fun l => !startsWithC l))).flatten) :=
  c4_merge_missing_block exParFn [exBlock1] [some exBlock3] (by decide)

/-- Concatenating contiguous blocks in order yields the full ascending
index range. -/
theorem contiguousFrom_flatten (idx : String → ℕ) (s : ℕ)
    (rows : List (List String)) (h : contiguousFrom idx s rows) :
    rows.flatten.map idx = List.range' s rows.flatten.length := by
  induction rows generalizing s with
  | nil => simp
  | cons r rest ih =>
      obtain ⟨h1, h2⟩ := h
      have h3 := ih (s + r.length) h2
      simp only [List.flatten_cons, List.map_append, List.length_append]
      rw [h1, h3, List.range'_append_1, Nat.add_comm]

/-- Filtering away lines that start with C from a block consisting of one
header line and data rows leaves exactly the data rows. -/
theorem filter_header_block (h : String) (r : List String)
    (hh : startsWithC h = true) (hr : ∀ l ∈ r, startsWithC l = false) :
    (h :: r).filter (fun l => !startsWithC l) = r := by
  rw [List.filter_cons]
  simp only [hh, Bool.not_true, Bool.false_eq_true, if_false]
  exact List.filter_eq_self.mpr (fun a ha => by simp [hr a ha])

/-- Dropping the header of every block recovers the per-block data rows. -/
theorem zipWith_cons_filter (hdrs : List String) (rows : List (List String))
    (hlen : hdrs.length = rows.length)
    (hhdr : ∀ h ∈ hdrs, startsWithC h = true)
    (hrows : ∀ r ∈ rows, ∀ l ∈ r, startsWithC l = false) :
    (List.zipWith (· :: ·) hdrs rows).map
      (fun ls => ls.filter (fun l => !startsWithC l)) = rows := by
  induction hdrs generalizing rows with
  | nil =>
      cases rows with
      | nil => rfl
      | cons r rs => simp at hlen
  | cons h hs ih =>
      cases rows with
      | nil => simp at hlen
      | cons r rs =>
          simp only [List.zipWith_cons_cons, List.map_cons]
          rw [filter_header_block h r (hhdr h (by simp)) (hrows r (by simp))]
          rw [ih rs (by simpa using hlen) (fun x hx => hhdr x (by simp [hx]))
            (fun x hx => hrows x (by simp [hx]))]

/-- C5: merging any number of block files, each made of one header line
followed by data rows carrying contiguous ascending particle-index
ranges, yields a file with exactly one header line followed by all data
rows in block order, whose indices are 1..M in strictly ascending
order. -/
theorem c5_merge_ordering (parFnOf : ℕ → String) (idx : String → ℕ)
    (hdrs : List String) (rows : List (List String))
    (hlen : hdrs.length = rows.length) (hne : rows ≠ [])
    (hhdr : ∀ h ∈ hdrs, startsWithC h = true)
    (hrows : ∀ r ∈ rows, ∀ l ∈ r, startsWithC l = false)
    (hcont : contiguousFrom idx 1 rows) :
    ∃ hdr : String,
      (mergeAllParFiles parFnOf ((List.zipWith (· :: ·) hdrs rows).map some)).error
        = none ∧
      (mergeAllParFiles parFnOf ((List.zipWith (· :: ·) hdrs rows).map some)).outFile
        = some (hdr :: rows.flatten) ∧
      startsWithC hdr = true ∧
      (hdr :: rows.flatten).countP (fun l => startsWithC l) = 1 ∧
      rows.flatten.map idx = List.range' 1 rows.flatten.length := by
  have hflat : rows.flatten.map idx = List.range' 1 rows.flatten.length :=
    contiguousFrom_flatten idx 1 rows hcont
  have hcount : rows.flatten.countP (fun l => startsWithC l) = 0 :=
    List.countP_eq_zero.mpr (fun a ha => by
      obtain ⟨l, hl, hal⟩ := List.mem_flatten.mp ha
      simp [hrows l hl a hal])
  by_cases h1 : ((List.zipWith (· :: ·) hdrs rows).map some).length = 1
  · have hlen1 : rows.length = 1 := by
      simp only [List.length_map, List.length_zipWith, hlen, Nat.min_self] at h1
      exact h1
    obtain ⟨r, hr0⟩ : ∃ r, rows = [r] := by
      cases rows with
      | nil => simp at hlen1
      | cons a t =>
          cases t with
          | nil => exact ⟨a, rfl⟩
          | cons b u => simp at hlen1
    obtain ⟨h0, hh0⟩ : ∃ h0, hdrs = [h0] := by
      subst hr0
      cases hdrs with
      | nil => simp at hlen
      | cons a t =>
          cases t with
          | nil => exact ⟨a, rfl⟩
          | cons b u => simp at hlen
    subst hr0 hh0
    refine ⟨h0, ?_, ?_, hhdr h0 (by simp), ?_, hflat⟩
    · rfl
    · simp [mergeAllParFiles]
    · have hc : r.countP (fun l => startsWithC l) = 0 := by
        simpa using hcount
      simp [List.countP_cons, hc, hhdr h0 (by simp)]
  · unfold mergeAllParFiles
    rw [if_pos h1]
    have hloop := mergeLoop_all_some parFnOf (List.zipWith (· :: ·) hdrs rows) 1 [parHeader]
    rw [hloop]
    rw [zipWith_cons_filter hdrs rows hlen hhdr hrows]
    refine ⟨parHeader, rfl, rfl, by decide, ?_, hflat⟩
    simp [List.countP_cons, hcount, show startsWithC parHeader = true by decide]

/-- Witness for C5 at a concrete three-block input whose particle index
function is the string length. -/
theorem c5_merge_ordering_witness :
    ∃ hdr : String,
      (mergeAllParFiles exParFn ((List.zipWith (· :: ·) ["C 1", "C 2", "C 3"]
        [["a"], ["bb"], ["ccc"]]).map some)).error = none ∧
      (mergeAllParFiles exParFn ((List.zipWith (· :: ·) ["C 1", "C 2", "C 3"]
        [["a"], ["bb"], ["ccc"]]).map some)).outFile
        = some (hdr :: [["a"], ["bb"], ["ccc"]].flatten) ∧
      startsWithC hdr = true ∧
      (hdr :: [["a"], ["bb"], ["ccc"]].flatten).countP (fun l => startsWithC l) = 1 ∧
      [["a"], ["bb"], ["ccc"]].flatten.map String.length
        = List.range' 1 [["a"], ["bb"], ["ccc"]].flatten.length :=
  c5_merge_ordering exParFn String.length ["C 1", "C 2", "C 3"] [["a"], ["bb"], ["ccc"]]
    rfl (by decide) (by decide) (by decide) ⟨rfl, rfl, rfl, trivial⟩

/-- Counterexample for C7 as stated: for a line with tokens 3 and 5 on an
image of height 100 the claim predicts (x, y) = (3, 100 - 5), but the
code stores (5, 97). -/
theorem c7_counterexample : readCoordinatesLine 100 [3, 5] ≠ (3, 100 - 5) := by
  norm_num [readCoordinatesLine]

/-- C7 (amended): for every .plt line with at least two numeric tokens,
the second token becomes the coordinate x value and the image height
minus the first token becomes the y value. -/
theorem c7_plt_coordinates (yDim a b : ℚ) (rest : List ℚ) :
    readCoordinatesLine yDim (a :: b :: rest) = (b, yDim - a) := rfl

/-- Mapping Prod.fst over a zip keeps the first list truncated to the
length of the second. -/
theorem zipMapFstTake {α β : Type} (l1 : List α) (l2 : List β) :
    (l1.zip l2).map Prod.fst = l1.take l2.length := by
  induction l1 generalizing l2 with
  | nil => simp
  | cons a t ih =>
      cases l2 with
      | nil => simp
      | cons b u => simp [List.zip_cons_cons, ih]

/-- Mapping Prod.snd over a zip keeps the second list truncated to the
length of the first. -/
theorem zipMapSndTake {α β : Type} (l1 : List α) (l2 : List β) :
    (l1.zip l2).map Prod.snd = l2.take l1.length := by
  induction l1 generalizing l2 with
  | nil => simp
  | cons a t ih =>
      cases l2 with
      | nil => simp
      | cons b u => simp [List.zip_cons_cons, ih]

/-- C9: a non-comment line whose whitespace tokens number fewer than the
17 header columns yields, without any error, an ordered mapping of
exactly the first k header columns to the k tokens; no placeholder or
error value stands in for the missing trailing columns. -/
theorem c9_short_row_truncates (line : String)
    (hC : startsWithC (pyStrip line) = false)
    (hk : (pySplit (pyStrip line)).length < 17) :
    ∃ row : List (String × String),
      frealignIterLine line = some row ∧
      row.map Prod.fst = HEADER_COLUMNS.take (pySplit (pyStrip line)).length ∧
      row.map Prod.snd = pySplit (pyStrip line) ∧
      row.length = (pySplit (pyStrip line)).length := by
  refine ⟨HEADER_COLUMNS.zip (pySplit (pyStrip line)), ?_, ?_, ?_, ?_⟩
  · simp [frealignIterLine, hC]
  · exact zipMapFstTake HEADER_COLUMNS (pySplit (pyStrip line))
  · rw [zipMapSndTake]
    exact List.take_of_length_le (by simpa [HEADER_COLUMNS] using Nat.le_of_lt hk)
  · simp only [List.length_zip]
    have h17 : HEADER_COLUMNS.length = 17 := rfl
    omega

/-- Witness for C9 at the concrete three-token line. -/
theorem c9_short_row_truncates_witness :
    ∃ row : List (String × String),
      frealignIterLine "      1   10.00   20.00" = some row ∧
      row.map Prod.fst
        = HEADER_COLUMNS.take (pySplit (pyStrip "      1   10.00   20.00")).length ∧
      row.map Prod.snd = pySplit (pyStrip "      1   10.00   20.00") ∧
      row.length = (pySplit (pyStrip "      1   10.00   20.00")).length :=
  c9_short_row_truncates "      1   10.00   20.00" (by decide) (by decide)

end Cistem
